import Mathlib

/-!
Verification of the Strategy Execution Engine of the `tgnew` trading-bot
repository against its natural-language specification.

The development shallowly embeds the relevant parts of the source:

* `bots/indicators.py` — indicator wrappers.  The numeric indicator values
  themselves are produced by the external `ta`/`pandas` library, which the
  specification explicitly treats as an external collaborator returning "a
  numeric result or undefined when history is insufficient".  Accordingly each
  wrapper is embedded as its concrete insufficiency guard (taken verbatim from
  the source) in front of an abstract oracle field of `IndicatorOracle`.
  `calculate_volume_spike` and `calculate_pivot_points` are computed entirely
  in the source, so they are embedded concretely.
* `bots/strategies.py` — the signal evaluators `check_single_signal` /
  `check_combined_signal`, grid computation, quantity computation, position
  bookkeeping, order reconciliation and the stop procedure.
* `bots/utils.py` — the order-quantity normalization of
  `ExchangeAPI.create_order` and the failure behaviour of the network calls.
* `bots/tasks.py` — the scheduled task `run_trading_strategy` (locking, the
  signal gate in front of `execute()`, and the retry discipline).

Python floats are modelled as `ℚ`; a Python `None` becomes `Option.none`; a
Python expression that raises (for example comparing `None` with `<=`) is
modelled in the `Except Unit` monad.
-/

namespace Tgnew

/-! ### Candle window and indicator oracles -/

/-- Aligned high/low/close/volume arrays extracted from the fetched klines
(most recent candle last), as built at the top of `check_single_signal` and
`check_combined_signal` (strategies.py:158-161, 242-245).  The source tests
`if not klines` before extracting; since each of the four lists is a
per-candle map over the klines list, `closes = []` exactly when the klines
list is empty. -/
structure Window where
  highs : List ℚ
  lows : List ℚ
  closes : List ℚ
  volumes : List ℚ
deriving DecidableEq

/-- Abstract values returned by the external `ta` library once the concrete
insufficiency guards of `bots/indicators.py` have passed.  Components are
`Option ℚ` because the source additionally maps empty series to `None`
(e.g. indicators.py:309-311). -/
structure IndicatorOracle where
  rsiVal : List ℚ → ℕ → Option ℚ
  cciVal : List ℚ → List ℚ → List ℚ → ℕ → Option ℚ
  mfiVal : List ℚ → List ℚ → List ℚ → List ℚ → ℕ → Option ℚ
  adxVal : List ℚ → List ℚ → List ℚ → ℕ → Option ℚ
  atrVal : List ℚ → List ℚ → List ℚ → ℕ → Option ℚ
  macdVal : List ℚ → ℕ → ℕ → ℕ → Option ℚ × Option ℚ × Option ℚ
  bollingerVal : List ℚ → ℕ → ℚ → Option ℚ × Option ℚ × Option ℚ
  stochasticVal : List ℚ → List ℚ → List ℚ → ℕ → ℕ → Option ℚ × Option ℚ
  ichimokuVal : List ℚ → List ℚ → List ℚ → ℕ → ℕ → ℕ →
    Option ℚ × Option ℚ × Option ℚ × Option ℚ
  maCrossoverVal : List ℚ → ℕ → ℕ → String →
    Option ℚ × Option ℚ × Option ℚ × Option ℚ

/-- The oracle whose every abstract indicator value is undefined. -/
def noneOracle : IndicatorOracle where
  rsiVal := fun _ _ => none
  cciVal := fun _ _ _ _ => none
  mfiVal := fun _ _ _ _ _ => none
  adxVal := fun _ _ _ _ => none
  atrVal := fun _ _ _ _ => none
  macdVal := fun _ _ _ _ => (none, none, none)
  bollingerVal := fun _ _ _ => (none, none, none)
  stochasticVal := fun _ _ _ _ _ => (none, none)
  ichimokuVal := fun _ _ _ _ _ _ => (none, none, none, none)
  maCrossoverVal := fun _ _ _ _ => (none, none, none, none)

/-- Source `calculate_rsi` (indicators.py:47-77): `if not prices or len(prices) <
period: return None`, otherwise the `ta` value. -/
def calculate_rsi (o : IndicatorOracle) (prices : List ℚ) (period : ℕ) : Option ℚ :=
  if prices = [] ∨ prices.length < period then none else o.rsiVal prices period

/-- Source `calculate_cci` (indicators.py:79-111): guard `not all([high, low, close])
or len(high) < period`. -/
def calculate_cci (o : IndicatorOracle) (high low close : List ℚ) (period : ℕ) : Option ℚ :=
  if high = [] ∨ low = [] ∨ close = [] ∨ high.length < period then none
  else o.cciVal high low close period

/-- Source `calculate_mfi` (indicators.py:113-146). -/
def calculate_mfi (o : IndicatorOracle) (high low close volume : List ℚ)
    (period : ℕ) : Option ℚ :=
  if high = [] ∨ low = [] ∨ close = [] ∨ volume = [] ∨ high.length < period then none
  else o.mfiVal high low close volume period

/-- Source `calculate_adx` (indicators.py:148-180). -/
def calculate_adx (o : IndicatorOracle) (high low close : List ℚ) (period : ℕ) : Option ℚ :=
  if high = [] ∨ low = [] ∨ close = [] ∨ high.length < period then none
  else o.adxVal high low close period

/-- Source `calculate_atr` (indicators.py:182-214). -/
def calculate_atr (o : IndicatorOracle) (high low close : List ℚ) (period : ℕ) : Option ℚ :=
  if high = [] ∨ low = [] ∨ close = [] ∨ high.length < period then none
  else o.atrVal high low close period

/-- Source `calculate_macd` (indicators.py:282-318): `if not close or len(close) <
slow_period: return None, None, None`. -/
def calculate_macd (o : IndicatorOracle) (close : List ℚ)
    (fastPeriod slowPeriod signalPeriod : ℕ) : Option ℚ × Option ℚ × Option ℚ :=
  if close = [] ∨ close.length < slowPeriod then (none, none, none)
  else o.macdVal close fastPeriod slowPeriod signalPeriod

/-- Source `calculate_bollinger_bands` (indicators.py:384-419). -/
def calculate_bollinger_bands (o : IndicatorOracle) (prices : List ℚ)
    (period : ℕ) (dev : ℚ) : Option ℚ × Option ℚ × Option ℚ :=
  if prices = [] ∨ prices.length < period then (none, none, none)
  else o.bollingerVal prices period dev

/-- Source `calculate_stochastic` (indicators.py:421-457). -/
def calculate_stochastic (o : IndicatorOracle) (high low close : List ℚ)
    (kPeriod dPeriod : ℕ) : Option ℚ × Option ℚ :=
  if high = [] ∨ low = [] ∨ close = [] ∨ high.length < kPeriod then (none, none)
  else o.stochasticVal high low close kPeriod dPeriod

/-- Source `calculate_ichimoku` (indicators.py:494-533): guard `len(high) <
max(tenkan_period, kijun_period, senkou_period)`. -/
def calculate_ichimoku (o : IndicatorOracle) (high low close : List ℚ)
    (tenkan kijun senkou : ℕ) : Option ℚ × Option ℚ × Option ℚ × Option ℚ :=
  if high = [] ∨ low = [] ∨ close = [] ∨ high.length < max tenkan (max kijun senkou) then
    (none, none, none, none)
  else o.ichimokuVal high low close tenkan kijun senkou

/-- Source `calculate_ma_crossover` (indicators.py:567-619): guard `not closes or
len(closes) < long_period + 1`; an unsupported `ma_type` also yields all
`None` (indicators.py:600-602). -/
def calculate_ma_crossover (o : IndicatorOracle) (closes : List ℚ)
    (shortPeriod longPeriod : ℕ) (maType : String) :
    Option ℚ × Option ℚ × Option ℚ × Option ℚ :=
  if closes = [] ∨ closes.length < longPeriod + 1 then (none, none, none, none)
  else if maType = "sma" ∨ maType = "ema" then
    o.maCrossoverVal closes shortPeriod longPeriod maType
  else (none, none, none, none)

/-- Source `calculate_volume_spike` (indicators.py:535-565), computed concretely in
the source: `avg_volume = statistics.mean(volumes[-lookback-1:-1])`,
`current_volume = volumes[-1]`, with guard `len(volumes) < lookback + 1`.
With `lookback = 0` the slice is empty, `statistics.mean` raises inside the
`try`, and the `except` returns `(None, None)`. -/
def calculate_volume_spike (volumes : List ℚ) (lookback : ℕ) : Option ℚ × Option ℚ :=
  if volumes = [] ∨ volumes.length < lookback + 1 then (none, none)
  else if lookback = 0 then (none, none)
  else
    let window := volumes.dropLast.drop (volumes.dropLast.length - lookback)
    (some (volumes.getLastD 0), some (window.sum / (window.length : ℚ)))

/-- Number of (hourly) candles per pivot period (indicators.py:635-642). -/
def pivotLookback (period : String) : ℕ :=
  if period = "1h" then 1
  else if period = "4h" then 4
  else if period = "D" then 24
  else if period = "W" then 24 * 7
  else if period = "M" then 24 * 30
  else 24

/-- Maximum of a list, as Python `max` on a nonempty list. -/
def listMax (l : List ℚ) : ℚ := l.foldl max (l.headD 0)

/-- Minimum of a list, as Python `min` on a nonempty list. -/
def listMin (l : List ℚ) : ℚ := l.foldl min (l.headD 0)

/-- Source `calculate_pivot_points` (indicators.py:621-674), computed concretely in
the source over the last `lookback` candles. -/
def calculate_pivot_points (highs lows closes : List ℚ) (period : String) :
    Option ℚ × Option ℚ × Option ℚ :=
  let lookback := pivotLookback period
  if highs = [] ∨ lows = [] ∨ closes = [] ∨ highs.length < lookback then (none, none, none)
  else
    let ph := highs.drop (highs.length - lookback)
    let pl := lows.drop (lows.length - lookback)
    let pc := closes.drop (closes.length - lookback)
    let hi := listMax ph
    let lo := listMin pl
    let cl := pc.getLastD 0
    let pivot := (hi + lo + cl) / 3
    (some pivot, some (2 * pivot - lo), some (2 * pivot - hi))

/-! ### Signal specifications and evaluation -/

/-- One signal specification with its parameters already resolved against the
`signal_params.get(key, default)` lookups of the source.  The constructors
mirror the branches of `check_single_signal` (strategies.py:226-388). -/
inductive SignalSpec where
  | rsi (period : ℕ) (threshold : ℚ)
  | cci (period : ℕ) (threshold : ℚ)
  | mfi (period : ℕ) (threshold : ℚ)
  | macd (fastPeriod slowPeriod signalPeriod : ℕ) (condition : String)
  | bollingerBands (period : ℕ) (dev : ℚ)
  | stochastic (kPeriod dPeriod : ℕ) (threshold : ℚ)
  | price (targetPrice : Option ℚ)
  | volumeSpike (lookback : ℕ) (threshold : ℚ)
  | maCrossover (shortPeriod longPeriod : ℕ)
  | pivotPoints (condition : String)
  | adx (period : ℕ) (threshold : ℚ)
  | atr (period : ℕ) (threshold : ℚ)
  | ichimoku (tenkanPeriod kijunPeriod senkouPeriod : ℕ) (condition : String)
  | unknown
deriving DecidableEq

/-- Whether a specification is the MACD kind (the one combined-member branch
whose evaluation differs from `check_single_signal`). -/
def SignalSpec.isMacdKind : SignalSpec → Bool
  | .macd _ _ _ _ => true
  | _ => false

/-- The two `BotSettings` fields consulted during evaluation
(`ma_crossover_type` and `pivot_points_period`). -/
structure StratSettings where
  maCrossoverType : String
  pivotPointsPeriod : String
deriving DecidableEq

/-- Result of evaluating a signal: `.ok b` is a returned boolean, `.error ()`
is a raised Python exception. -/
abbrev EvalM := Except Unit Bool

/-- Source `check_single_signal` (strategies.py:226-388).  `curPrice` is the result
of the `get_current_price()` network call used by the `price` kind.  Every
indicator `None` is guarded before any comparison, exactly as in the source;
the final `else` branch returns `False` for an unknown signal type. -/
def check_single_signal (o : IndicatorOracle) (stg : StratSettings)
    (spec : SignalSpec) (w : Window) (curPrice : Option ℚ) : EvalM :=
  if w.closes = [] then .ok false
  else
    match spec with
    | .rsi period threshold =>
        match calculate_rsi o w.closes period with
        | none => .ok false
        | some r => .ok (decide (r < threshold))
    | .cci period threshold =>
        match calculate_cci o w.highs w.lows w.closes period with
        | none => .ok false
        | some c => .ok (decide (c < threshold))
    | .mfi period threshold =>
        match calculate_mfi o w.highs w.lows w.closes w.volumes period with
        | none => .ok false
        | some m => .ok (decide (m < threshold))
    | .macd fastP slowP sigP condition =>
        match calculate_macd o w.closes fastP slowP sigP with
        | (some m, some s, _) =>
            match calculate_macd o w.closes.dropLast fastP slowP sigP with
            | (some pm, some ps, _) =>
                if condition = "crossover" then .ok (decide (s < m) && decide (pm ≤ ps))
                else if condition = "crossunder" then .ok (decide (m < s) && decide (ps ≤ pm))
                else .ok false
            | _ => .ok false
        | _ => .ok false
    | .bollingerBands period dev =>
        match calculate_bollinger_bands o w.closes period dev with
        | (some _, some lower, _) => .ok (decide (w.closes.getLastD 0 < lower))
        | _ => .ok false
    | .stochastic kPeriod dPeriod threshold =>
        match calculate_stochastic o w.highs w.lows w.closes kPeriod dPeriod with
        | (some k, _) => .ok (decide (k < threshold))
        | _ => .ok false
    | .price target =>
        match curPrice, target with
        | some c, some t =>
            if c ≠ 0 ∧ t ≠ 0 then .ok (decide (c ≤ t)) else .ok false
        | _, _ => .ok false
    | .volumeSpike lookback threshold =>
        match calculate_volume_spike w.volumes lookback with
        | (some cur, some avg) => .ok (decide (avg * threshold < cur))
        | _ => .ok false
    | .maCrossover shortP longP =>
        match calculate_ma_crossover o w.closes shortP longP stg.maCrossoverType with
        | (some s, some l, some ps, some pl) => .ok (decide (l < s) && decide (ps ≤ pl))
        | _ => .ok false
    | .pivotPoints condition =>
        match calculate_pivot_points w.highs w.lows w.closes stg.pivotPointsPeriod with
        | (some _, some r1, some s1) =>
            if condition = "above_resistance" then .ok (decide (r1 < w.closes.getLastD 0))
            else .ok (decide (w.closes.getLastD 0 < s1))
        | _ => .ok false
    | .adx period threshold =>
        match calculate_adx o w.highs w.lows w.closes period with
        | none => .ok false
        | some a => .ok (decide (threshold < a))
    | .atr period threshold =>
        match calculate_atr o w.highs w.lows w.closes period with
        | none => .ok false
        | some a => .ok (decide (threshold < a))
    | .ichimoku tenkanP kijunP senkouP condition =>
        match calculate_ichimoku o w.highs w.lows w.closes tenkanP kijunP senkouP with
        | (some a, some b, _, _) =>
            if condition = "above_cloud" then .ok (decide (max a b < w.closes.getLastD 0))
            else if condition = "below_cloud" then .ok (decide (w.closes.getLastD 0 < min a b))
            else .ok false
        | _ => .ok false
    | .unknown => .ok false

/-- Evaluation of one member inside `check_combined_signal`
(strategies.py:163-222).  The `rsi`, `macd`, `ma_crossover` and
`pivot_points` kinds have dedicated inline branches; every other kind is
delegated to `check_single_signal` (strategies.py:218-221).  In the MACD
branch the source computes `crossover = macd > signal_line and prev_macd <=
prev_signal_line` (strategies.py:190) without a `None` guard on the
previous-window values, so when `macd > signal_line` holds and the previous
window is too short the comparison raises `TypeError`; the short-circuit of
`and` avoids the comparison when `macd > signal_line` is false. -/
def combined_member_eval (o : IndicatorOracle) (stg : StratSettings)
    (spec : SignalSpec) (w : Window) (curPrice : Option ℚ) : EvalM :=
  match spec with
  | .rsi period threshold =>
      match calculate_rsi o w.closes period with
      | none => .ok false
      | some r => .ok (decide (r < threshold))
  | .macd fastP slowP sigP condition =>
      match calculate_macd o w.closes fastP slowP sigP with
      | (some m, some s, _) =>
          if w.closes.length < 2 then .ok false
          else
            let prev := calculate_macd o w.closes.dropLast fastP slowP sigP
            let crossover : EvalM :=
              if decide (s < m) then
                match prev.1, prev.2.1 with
                | some pm, some ps => .ok (decide (pm ≤ ps))
                | _, _ => .error ()
              else .ok false
            crossover.map (fun c => if condition = "crossover" then c else false)
      | _ => .ok false
  | .maCrossover shortP longP =>
      match calculate_ma_crossover o w.closes shortP longP stg.maCrossoverType with
      | (some s, some l, some ps, some pl) => .ok (decide (l < s) && decide (ps ≤ pl))
      | _ => .ok false
  | .pivotPoints condition =>
      match calculate_pivot_points w.highs w.lows w.closes stg.pivotPointsPeriod with
      | (some _, some r1, some s1) =>
          if condition = "above_resistance" then .ok (decide (r1 < w.closes.getLastD 0))
          else .ok (decide (w.closes.getLastD 0 < s1))
      | _ => .ok false
  | spec => check_single_signal o stg spec w curPrice

/-- The member-result accumulation loop of `check_combined_signal`: an
exception raised while evaluating a member aborts the whole evaluation. -/
def eval_members (o : IndicatorOracle) (stg : StratSettings) :
    List SignalSpec → Window → Option ℚ → Except Unit (List Bool)
  | [], _, _ => .ok []
  | s :: rest, w, cp => do
      let r ← combined_member_eval o stg s w cp
      let rs ← eval_members o stg rest w cp
      pure (r :: rs)

/-- Source `check_combined_signal` (strategies.py:144-224): returns `False` when the
klines fetch yields nothing, otherwise `all(results)` over the member
results. -/
def check_combined_signal (o : IndicatorOracle) (stg : StratSettings)
    (members : List SignalSpec) (w : Window) (curPrice : Option ℚ) : EvalM :=
  if w.closes = [] then .ok false
  else (eval_members o stg members w curPrice).map (fun rs => rs.all id)

/-! ### Position aggregate and order reconciliation -/

/-- The `BotPosition` fields carried by `TradingStrategy`
(strategies.py:57-63). -/
structure PosState where
  position : ℚ
  avgPrice : ℚ
  sellOrderId : Option String
  buyOrders : List String
  positionOpened : Bool
  highestPrice : ℚ
deriving DecidableEq

/-- Source `update_position` (strategies.py:1179-1199): first fill sets the price,
later fills accumulate the weighted average. -/
def update_position (s : PosState) (price qty : ℚ) : PosState :=
  if s.position = 0 then
    { s with position := qty, avgPrice := price, positionOpened := true }
  else
    let total := s.position + qty
    { s with
        position := total
        avgPrice := (s.avgPrice * s.position + price * qty) / total
        positionOpened := true }

/-- Source `close_position` (strategies.py:1201-1221): every field reset to its
zero/empty value. -/
def close_position (_s : PosState) : PosState :=
  { position := 0, avgPrice := 0, sellOrderId := none, buyOrders := [],
    positionOpened := false, highestPrice := 0 }

/-- Source `cancel_all_orders` (strategies.py:1338-1360), success path: every tracked
buy order is cancelled and removed, then the sell order. -/
def cancel_all_orders (s : PosState) : PosState :=
  { s with buyOrders := [], sellOrderId := none }

/-- One open/filled order row as returned by the venue's open-orders endpoint
and consumed by `check_open_orders`. -/
structure OrderInfo where
  orderId : String
  filled : Bool
  price : ℚ
  qty : ℚ
deriving DecidableEq

/-- Loop state of `check_open_orders`: the evolving position, the -
deal counter, and the accumulated `remaining_buy_orders` list. -/
structure ReconState where
  pos : PosState
  deals : ℕ
  remaining : List String
deriving DecidableEq

/-- One iteration of the reconciliation loop (strategies.py:976-993, Bybit
branch; the Binance and OKX branches are structurally identical).  Membership
is tested against the current `self.buy_orders`, which `close_position`
empties. -/
def check_open_orders_step (st : ReconState) (o : OrderInfo) : ReconState :=
  if o.orderId ∈ st.pos.buyOrders then
    if o.filled then
      { st with pos := update_position st.pos o.price o.qty, deals := st.deals + 1 }
    else
      { st with remaining := st.remaining ++ [o.orderId] }
  else if st.pos.sellOrderId = some o.orderId ∧ o.filled then
    { st with pos := close_position st.pos, deals := st.deals + 1 }
  else st

/-- Source `check_open_orders` (strategies.py:947-996), success path: fold the loop
over the fetched orders, then `self.buy_orders = remaining_buy_orders`
(strategies.py:994). -/
def check_open_orders (p : PosState) (deals : ℕ) (orders : List OrderInfo) :
    PosState × ℕ :=
  let st := orders.foldl check_open_orders_step { pos := p, deals := deals, remaining := [] }
  ({ st.pos with buyOrders := st.remaining }, st.deals)

/-! ### Stop procedure -/

/-- The bot's activity flags (`Bot.status`, `Bot.is_running`). -/
structure BotFlags where
  status : String
  isRunning : Bool
deriving DecidableEq

/-- The three externally visible steps of the stop procedure. -/
inductive StopStep where
  | markInactive
  | cancelAllOrders
  | zeroPosition
deriving DecidableEq

/-- Source `TradingStrategy.stop_bot` (strategies.py:1362-1376).  The source first
sets `status = 'stopped'` and `is_running = False` and saves (1367-1369),
then calls `cancel_all_orders()` (1370), then `close_position(profit=0)`
(1371).  The emitted step list records that order. -/
def stop_bot (b : BotFlags) (p : PosState) : BotFlags × PosState × List StopStep :=
  let b1 : BotFlags := { b with status := "stopped", isRunning := false }
  let p1 := cancel_all_orders p
  let p2 := close_position p1
  (b1, p2, [StopStep.markInactive, StopStep.cancelAllOrders, StopStep.zeroPosition])

/-! ### Execute cycle and scheduled task -/

/-- Source `TradingStrategy.__init__` (strategies.py:65): `self.category = 'linear'
if self.bot.strategy == 'futures' else 'spot'`. -/
def botCategory (strategy : String) : String :=
  if strategy = "futures" then "linear" else "spot"

/-- The dictionary returned by `ExchangeAPI.get_balance` (utils.py:308-312)
carries the keys `balances`, `total_available_balance` and `margin_data`;
`marginRatioVal` stands for the resolved lookup
`balance_data.get('margin_data', {}).get('margin_ratio', 0)`. -/
structure BalanceData where
  totalAvailableBalance : ℚ
  marginRatioVal : ℚ
deriving DecidableEq

/-- Dictionary read `balance_data.get(key, default)` on the balance
dictionary: only the key `total_available_balance` holds the available
balance, so the source's read of `available_balance` (strategies.py:82)
yields the default `0`. -/
def balanceGet (bal : BalanceData) (key : String) (default : ℚ) : ℚ :=
  if key = "total_available_balance" then bal.totalAvailableBalance else default

/-- Inputs of one `TradingStrategy.execute()` call that the control flow
inspects. -/
structure ExecInput where
  botStrategy : String
  bal : BalanceData
  stopLossSet : Bool
  position : ℚ
  strategyRaises : Bool
  dealsCompleted : ℕ
  stopAfterDeals : ℕ
deriving DecidableEq

/-- Observable events of one `execute()` call. -/
structure ExecEvents where
  stoppedByMargin : Bool
  ranStrategyModes : Bool
  stopLossEvaluated : Bool
  stoppedAfterDeals : Bool
  raised : Bool
deriving DecidableEq

/-- Events of the margin-stop branch (strategies.py:83-90): `stop_bot()` and
`return` before any trade mode runs. -/
def marginStopEvents : ExecEvents :=
  { stoppedByMargin := true, ranStrategyModes := false, stopLossEvaluated := false,
    stoppedAfterDeals := false, raised := false }

/-- The tail of `execute()` after the pre-check (strategies.py:92-107): run
the trade mode(s); an exception aborts the call before the post-checks;
otherwise evaluate the stop-loss post-check when `self.stop_loss` is set and
`self.position > 0` (101-102) and the deal-count stop when
`self.stop_after_deals` is set and reached (105-107). -/
def executeRest (e : ExecInput) : ExecEvents :=
  if e.strategyRaises then
    { stoppedByMargin := false, ranStrategyModes := true, stopLossEvaluated := false,
      stoppedAfterDeals := false, raised := true }
  else
    { stoppedByMargin := false
      ranStrategyModes := true
      stopLossEvaluated := e.stopLossSet && decide (0 < e.position)
      stoppedAfterDeals := decide (e.stopAfterDeals ≠ 0) &&
        decide (e.stopAfterDeals ≤ e.dealsCompleted)
      raised := false }

/-- Source `TradingStrategy.execute` (strategies.py:69-111).  The balance is fetched
unconditionally; the margin/available-balance pre-check (81-90) is guarded by
`if self.category == 'futures'`, with `self.category` computed by
`botCategory`. -/
def execute (e : ExecInput) : ExecEvents :=
  if botCategory e.botStrategy = "futures" then
    if 9 / 10 < e.bal.marginRatioVal then marginStopEvents
    else if balanceGet e.bal "available_balance" 0 ≤ 0 then marginStopEvents
    else executeRest e
  else executeRest e

/-- Observable events of one scheduled tick of `run_trading_strategy`
(tasks.py:62-192). -/
structure TickEvents where
  executed : Bool
  stopLossEvaluated : Bool
  raised : Bool
deriving DecidableEq

/-- A tick that never reached `execute()`. -/
def skippedTick : TickEvents :=
  { executed := false, stopLossEvaluated := false, raised := false }

/-- One scheduled tick (tasks.py:74-114): skip when the per-bot lock is held
(76-78) or the bot is not active (84-87); otherwise evaluate
`strategy.check_signal()` and call `strategy.execute()` only when the signal
fired (110-114). -/
def run_trading_strategy_tick (lockHeld active signal : Bool) (e : ExecInput) :
    TickEvents :=
  if lockHeld then skippedTick
  else if !active then skippedTick
  else if signal then
    let ev := execute e
    { executed := true, stopLossEvaluated := ev.stopLossEvaluated, raised := ev.raised }
  else skippedTick

/-- Source `max_retries=3` from the task decorator (tasks.py:62). -/
def maxRetries : ℕ := 3

/-- Source `countdown = 60 * (2 ** self.request.retries)` (tasks.py:188). -/
def retryCountdown (retries : ℕ) : ℕ := 60 * 2 ^ retries

/-- Outcome of one task attempt. -/
inductive TaskDisposition where
  | completed
  | retryAfter (seconds : ℕ)
  | terminalFailure
deriving DecidableEq

/-- One task attempt with its failure handling (tasks.py:171-189): on an
uncaught exception the handler logs and reports, leaves the bot's flags
untouched, and calls `self.retry(countdown=60 * 2 ** retries)`; Celery
performs the retry while `request.retries < max_retries` and re-raises the
exception terminally once the retries are exhausted. -/
def run_trading_strategy_task (lockHeld active signal : Bool) (e : ExecInput)
    (retries : ℕ) (b : BotFlags) : TickEvents × TaskDisposition × BotFlags :=
  let ev := run_trading_strategy_tick lockHeld active signal e
  if ev.raised then
    (ev,
     if retries < maxRetries then TaskDisposition.retryAfter (retryCountdown retries)
     else TaskDisposition.terminalFailure,
     b)
  else (ev, TaskDisposition.completed, b)

/-! ### Grid levels, quantities, and order normalization -/

/-- Source `round_price` (strategies.py:613-624): `math.floor(price / tick_size) *
tick_size`. -/
def round_price (price tickSize : ℚ) : ℚ := ⌊price / tickSize⌋ * tickSize

/-- Source `calculate_buy_levels` (strategies.py:1081-1100).  `pow12` abstracts the
float power `(i + 1) ** 1.2` of the logarithmic branch (1095); the geometric
branch uses `step = current_price * grid_spacing * (1 + grid_overlap)`
(1092, 1097).  Each level is rounded with `round_price` (1098). -/
def calculate_buy_levels (logarithmic : Bool) (pow12 : ℕ → ℚ)
    (currentPrice gridSpacing gridOverlap tickSize : ℚ) (gridOrders : ℕ) : List ℚ :=
  (List.range gridOrders).map (fun i =>
    let raw :=
      if logarithmic then currentPrice * (1 - gridSpacing * pow12 (i + 1))
      else currentPrice - currentPrice * gridSpacing * (1 + gridOverlap) * ((i : ℚ) + 1)
    round_price raw tickSize)

/-- Source `calculate_quantity` (strategies.py:1102-1177): `qty = base_qty * (1 +
martingale) ** level_index`; a quantity below the minimum is raised to the
minimum (1115-1117), then floored to `base_precision` (1176). -/
def calculate_quantity (baseQty martingale : ℚ) (levelIndex : ℕ)
    (minOrderSize basePrecision : ℚ) : ℚ :=
  let qty := baseQty * (1 + martingale) ^ levelIndex
  let qty2 := if qty < minOrderSize then minOrderSize else qty
  ⌊qty2 / basePrecision⌋ * basePrecision

/-- The per-level decision of `run_advanced_grid` (strategies.py:713-717): a
level whose `calculate_quantity` result is below the minimum is skipped with
`continue`; otherwise an order for that quantity is placed. -/
def grid_level_order (baseQty martingale : ℚ) (levelIndex : ℕ)
    (minOrderSize basePrecision : ℚ) : Option ℚ :=
  let qty := calculate_quantity baseQty martingale levelIndex minOrderSize basePrecision
  if qty < minOrderSize then none else some qty

/-- Quantity normalization of `ExchangeAPI.create_order` (utils.py:501-515):
non-positive step and minimum are replaced by the defaults `0.001`
(502-510), the quantity is floored to the step (512), and a result below the
minimum is rejected with `ValueError` (513-515), modelled as `none`. -/
def create_order_qty (basePrecision minOrderQty qty : ℚ) : Option ℚ :=
  let bp := if basePrecision ≤ 0 then 1 / 1000 else basePrecision
  let mq := if minOrderQty ≤ 0 then 1 / 1000 else minOrderQty
  let q := ⌊qty / bp⌋ * bp
  if q < mq then none else some q

/-! ### Network-call failure model -/

/-- Outcome of one HTTP round trip: a payload, a venue-reported error
(`retCode`-style), or a transport failure (`requests.RequestException`,
which includes timeouts). -/
inductive NetOutcome where
  | ok (payload : ℚ)
  | venueError
  | transportFailure
deriving DecidableEq

/-- How a failure is surfaced to the caller: a value, a silent `None`, a
silently substituted default value, or a raised exception. -/
inductive FetchResult where
  | value (q : ℚ)
  | silentNone
  | raised
deriving DecidableEq

/-- Every `requests.get/post/delete` call in strategies.py and utils.py
passes `timeout=10` (42 call sites). -/
def httpTimeoutSeconds : ℕ := 10

/-- Source `TradingStrategy.get_current_price` (strategies.py:418-477): a venue
error returns `None` (448-449), and `requests.RequestException` is caught
and `None` returned (475-477). -/
def get_current_price (r : NetOutcome) : FetchResult :=
  match r with
  | .ok p => .value p
  | .venueError => .silentNone
  | .transportFailure => .silentNone

/-- Source `ExchangeAPI.get_klines` (utils.py:755-849): both a venue error and a
transport failure raise `ValueError` (801-805). -/
def exchange_get_klines (r : NetOutcome) : FetchResult :=
  match r with
  | .ok p => .value p
  | .venueError => .raised
  | .transportFailure => .raised

/-- Source `TradingStrategy.get_klines` (strategies.py:390-416): wraps
`ExchangeAPI.get_klines` in a `try` whose `except` returns `None`
(413-415). -/
def strategy_get_klines (r : NetOutcome) : FetchResult :=
  match exchange_get_klines r with
  | .raised => .silentNone
  | other => other

/-- Source `TradingStrategy.get_price_precision` (strategies.py:479-544): a venue
error or transport failure silently returns the default tick size `0.0001`
(503, 542-544). -/
def get_price_precision (r : NetOutcome) : FetchResult :=
  match r with
  | .ok p => .value p
  | .venueError => .value (1 / 10000)
  | .transportFailure => .value (1 / 10000)

/-! ### Concrete instances used in the theorems below -/

/-- The boolean value of a single-signal evaluation, with a raised exception
read as `false` (single-signal evaluation in fact never raises, see
`check_single_signal_ok`). -/
def singleBool (o : IndicatorOracle) (stg : StratSettings) (spec : SignalSpec)
    (w : Window) (cp : Option ℚ) : Bool :=
  match check_single_signal o stg spec w cp with
  | .ok b => b
  | .error _ => false

/-- Default strategy settings (`ma_crossover_type = 'sma'`,
`pivot_points_period = 'D'`, the model defaults of `BotSettings`). -/
def stg0 : StratSettings := { maCrossoverType := "sma", pivotPointsPeriod := "D" }

/-- A window of 26 identical candles. -/
def w26 : Window :=
  { highs := List.replicate 26 1, lows := List.replicate 26 1,
    closes := List.replicate 26 1, volumes := List.replicate 26 1 }

/-- A window of 30 identical candles. -/
def w30 : Window :=
  { highs := List.replicate 30 1, lows := List.replicate 30 1,
    closes := List.replicate 30 1, volumes := List.replicate 30 1 }

/-- A window of only 10 candles (insufficient history for a period-14 RSI). -/
def w10 : Window :=
  { highs := List.replicate 10 1, lows := List.replicate 10 1,
    closes := List.replicate 10 1, volumes := List.replicate 10 1 }

/-- An oracle that reports the MACD line above the signal line whenever its
guards pass.  It conforms to the indicator interface of the specification
(a numeric result where history suffices); the insufficiency guards of
`calculate_macd` sit in front of it. -/
def c4oracle : IndicatorOracle :=
  { noneOracle with macdVal := fun _ _ _ _ => (some 1, some 0, none) }

/-- An oracle reporting a MACD crossunder transition: on a 30-candle window
the MACD line is below the signal line, on any other (e.g. the 29-candle
previous) window it is above. -/
def c5oracle : IndicatorOracle :=
  { noneOracle with macdVal := fun cs _ _ _ =>
      if cs.length = 30 then (some 0, some 1, none) else (some 1, some 0, none) }

/-- A MACD member specification with the `crossunder` condition. -/
def c5spec : SignalSpec := SignalSpec.macd 12 26 9 "crossunder"

/-- Balance data with a healthy margin. -/
def c2bal : BalanceData := { totalAvailableBalance := 1000, marginRatioVal := 0 }

/-- A spot bot with a configured stop-loss and an open position. -/
def c2exec : ExecInput :=
  { botStrategy := "spot", bal := c2bal, stopLossSet := true, position := 2,
    strategyRaises := false, dealsCompleted := 0, stopAfterDeals := 0 }

/-- A position with one tracked buy order and one tracked sell order. -/
def c8pos : PosState :=
  { position := 1, avgPrice := 10, sellOrderId := some "s1", buyOrders := ["b1"],
    positionOpened := true, highestPrice := 12 }

/-- Open-order rows: the tracked buy order still unfilled, the sell order
filled. -/
def c8orders : List OrderInfo :=
  [{ orderId := "b1", filled := false, price := 9, qty := 1 },
   { orderId := "s1", filled := true, price := 11, qty := 1 }]

/-- A position whose only outstanding order is the sell order. -/
def c8posW : PosState :=
  { position := 2, avgPrice := 5, sellOrderId := some "s2", buyOrders := [],
    positionOpened := true, highestPrice := 7 }

/-- A single filled sell-order row for `c8posW`. -/
def c8ordersW : List OrderInfo := [{ orderId := "s2", filled := true, price := 6, qty := 2 }]

/-! ## Theorems -/

/-! ### Shared helper lemmas -/

/-- Source `botCategory` only ever produces `linear` or `spot`, never `futures`. -/
theorem botCategory_ne_futures (s : String) : botCategory s ≠ "futures" := by
  unfold botCategory
  split <;> decide

/-- Because of `botCategory_ne_futures`, the margin pre-check branch of
`execute` is unreachable and every call runs the trade modes. -/
theorem execute_eq_executeRest (e : ExecInput) : execute e = executeRest e := by
  unfold execute
  rw [if_neg (botCategory_ne_futures e.botStrategy)]

/-! ### C1 -/

/-- C1: the specification demands that a derivatives bot with margin ratio
above 0.9 (or non-positive available balance) is stopped before any strategy
mode runs.  In the code the pre-check is guarded by
`self.category == 'futures'` while `__init__` sets the category to `linear`
for futures bots, so the branch is dead: at the failing input (a futures bot
whose margin ratio is 0.95) the cycle runs the strategy modes and never
stops by margin; indeed no input whatsoever takes the margin-stop branch. -/
theorem c1_margin_precheck_dead :
    execute { botStrategy := "futures",
              bal := { totalAvailableBalance := 100, marginRatioVal := 19 / 20 },
              stopLossSet := false, position := 0, strategyRaises := false,
              dealsCompleted := 0, stopAfterDeals := 0 } =
      { stoppedByMargin := false, ranStrategyModes := true, stopLossEvaluated := false,
        stoppedAfterDeals := false, raised := false } ∧
    ∀ e : ExecInput, (execute e).stoppedByMargin = false := by
  constructor
  · rw [execute_eq_executeRest]
    rfl
  · intro e
    rw [execute_eq_executeRest]
    unfold executeRest
    split <;> rfl

/-! ### C2 -/

/-- C2 counterexample: a tick of an active, unlocked bot with a configured
stop-loss and a positive position on which the entry signal did not trigger.
The scheduled task never calls `execute()` (tasks.py:110-114), so the
stop-loss post-check is not evaluated, contradicting the claim that it is
evaluated on every tick regardless of the signal. -/
theorem c2_counterexample_tick_without_signal :
    c2exec.stopLossSet = true ∧ (0 : ℚ) < c2exec.position ∧
    (run_trading_strategy_tick false true false c2exec).executed = false ∧
    ¬ (run_trading_strategy_tick false true false c2exec).stopLossEvaluated = true := by
  refine ⟨rfl, by norm_num [c2exec], rfl, ?_⟩
  intro h
  exact absurd h (by simp [run_trading_strategy_tick, skippedTick])

/-- C2 (amended): on a scheduled tick the stop-loss post-check is evaluated
exactly when the lock is free, the bot is active, the entry signal
triggered, the trade modes did not raise, a stop-loss is configured, and the
position is positive — in particular it is never evaluated on a tick whose
entry signal did not trigger. -/
theorem c2_stop_loss_only_on_signal_ticks (lockHeld active signal : Bool) (e : ExecInput) :
    (run_trading_strategy_tick lockHeld active signal e).stopLossEvaluated = true ↔
      (lockHeld = false ∧ active = true ∧ signal = true ∧ e.strategyRaises = false ∧
       e.stopLossSet = true ∧ 0 < e.position) := by
  cases lockHeld <;> cases active <;> cases signal <;>
    simp [run_trading_strategy_tick, skippedTick, execute_eq_executeRest, executeRest]
  cases h : e.strategyRaises <;> simp [h]

/-! ### C3 -/

/-- C3 counterexample: at a concrete bot state the stop procedure does not
perform cancel-orders, zero-position, mark-inactive in that order. -/
theorem c3_counterexample_stop_order :
    ¬ ((stop_bot { status := "active", isRunning := true }
          { position := 1, avgPrice := 10, sellOrderId := some "s1", buyOrders := ["b1"],
            positionOpened := true, highestPrice := 12 }).2.2 =
        [StopStep.cancelAllOrders, StopStep.zeroPosition, StopStep.markInactive]) := by
  decide

/-- C3 (amended): `stop_bot` performs its three steps in the order
mark-inactive (status `stopped` and `is_running = False` saved first), then
cancel all outstanding orders, then zero the Position; afterwards the bot is
inactive and the position is at its zero/empty values. -/
theorem c3_stop_order_amended (b : BotFlags) (p : PosState) :
    (stop_bot b p).2.2 =
      [StopStep.markInactive, StopStep.cancelAllOrders, StopStep.zeroPosition] ∧
    (stop_bot b p).1.status = "stopped" ∧ (stop_bot b p).1.isRunning = false ∧
    (stop_bot b p).2.1.position = 0 ∧ (stop_bot b p).2.1.buyOrders = [] ∧
    (stop_bot b p).2.1.sellOrderId = none :=
  ⟨rfl, rfl, rfl, rfl, rfl, rfl⟩

/-! ### C9 -/

/-- C9 counterexample: a transport failure (which includes a timeout) makes
`get_current_price` and the strategy-level `get_klines` return `None`
silently, contradicting the claim that such failures are always surfaced as
a connectivity error and never as a silent `None`. -/
theorem c9_counterexample_silent_none :
    get_current_price NetOutcome.transportFailure = FetchResult.silentNone ∧
    strategy_get_klines NetOutcome.transportFailure = FetchResult.silentNone :=
  ⟨rfl, rfl⟩

/-- C9 (amended): every network call uses the bounded 10-second timeout, and
the `ExchangeAPI`-level klines call surfaces transport failures by raising;
but `get_current_price` returns `None` silently on both venue errors and
transport failures, and `get_price_precision` silently substitutes the
default tick size. -/
theorem c9_timeouts_and_failures_amended :
    httpTimeoutSeconds = 10 ∧
    exchange_get_klines NetOutcome.transportFailure = FetchResult.raised ∧
    exchange_get_klines NetOutcome.venueError = FetchResult.raised ∧
    get_current_price NetOutcome.transportFailure = FetchResult.silentNone ∧
    get_current_price NetOutcome.venueError = FetchResult.silentNone ∧
    get_price_precision NetOutcome.transportFailure = FetchResult.value (1 / 10000) ∧
    (∀ p, get_current_price (NetOutcome.ok p) = FetchResult.value p) :=
  ⟨rfl, rfl, rfl, rfl, rfl, rfl, fun _ => rfl⟩

/-! ### C10 -/

/-- C10: on an uncaught failure the cycle is retried after `60 * 2 ^ retries`
seconds while fewer than `max_retries = 3` retries have been spent, after
which the failure is terminal for that cycle; the failure handler leaves the
bot's flags (status and `is_running`) untouched, so the bot remains active
for the next scheduled tick. -/
theorem c10_retry_discipline (lockHeld active signal : Bool) (e : ExecInput)
    (retries : ℕ) (b : BotFlags) :
    (run_trading_strategy_task lockHeld active signal e retries b).2.1 =
      (if (run_trading_strategy_tick lockHeld active signal e).raised then
        (if retries < maxRetries then TaskDisposition.retryAfter (60 * 2 ^ retries)
         else TaskDisposition.terminalFailure)
       else TaskDisposition.completed) ∧
    (run_trading_strategy_task lockHeld active signal e retries b).2.2 = b ∧
    maxRetries = 3 := by
  refine ⟨?_, ?_, rfl⟩ <;>
    cases h : (run_trading_strategy_tick lockHeld active signal e).raised <;>
      simp [run_trading_strategy_task, retryCountdown, h]

/-! ### C6 -/

/-- C6 counterexample: a grid level whose computed size
`base_quantity * (1 + martingale) ^ level` (here `0.05`) falls below the
minimum order size (`0.1`) is not skipped: `calculate_quantity` raises the
quantity to the minimum and the level places an order of quantity `0.1`,
contradicting the claim that such a level is skipped entirely. -/
theorem c6_counterexample_undersized_level_placed :
    (1 : ℚ) / 20 * (1 + 0) ^ 0 < 1 / 10 ∧
    grid_level_order (1 / 20) 0 0 (1 / 10) (1 / 100) = some (1 / 10) := by
  constructor
  · norm_num
  · norm_num [grid_level_order, calculate_quantity]

/-- C6 (amended): every quantity accepted by the `create_order`
normalization is an exact integer multiple of the effective quantity step
and at least the effective minimum order size (`ExchangeAPI.create_order`
floors the quantity to the step and rejects a result below the minimum);
but a grid level whose computed size falls below the minimum is not skipped
— `calculate_quantity` raises it to the minimum, and `run_advanced_grid`
skips the level only if the step-floored quantity still falls below the
minimum. -/
theorem c6_placed_quantity_amended (bp mq qty q : ℚ)
    (h : create_order_qty bp mq qty = some q) :
    (∃ k : ℤ, q = (k : ℚ) * (if bp ≤ 0 then 1 / 1000 else bp)) ∧
    (if mq ≤ 0 then (1 : ℚ) / 1000 else mq) ≤ q := by
  set bp' := if bp ≤ 0 then (1 : ℚ) / 1000 else bp with hbp
  set mq' := if mq ≤ 0 then (1 : ℚ) / 1000 else mq with hmq
  unfold create_order_qty at h
  simp only [] at h
  rw [← hbp, ← hmq] at h
  split at h
  · exact absurd h (by simp)
  · next hge =>
      obtain rfl := Option.some.inj h
      exact ⟨⟨⌊qty / bp'⌋, rfl⟩, not_lt.mp hge⟩

/-- C6 witness: the amended theorem applied at step `0.1`, minimum `0.05`,
raw quantity `0.25`, whose accepted normalized quantity is `0.2`. -/
theorem c6_placed_quantity_witness :
    create_order_qty (1 / 10) (1 / 20) (1 / 4) = some (1 / 5) ∧
    (∃ k : ℤ, (1 : ℚ) / 5 = (k : ℚ) * (if (1 : ℚ) / 10 ≤ 0 then 1 / 1000 else 1 / 10)) ∧
    (if (1 : ℚ) / 20 ≤ 0 then (1 : ℚ) / 1000 else 1 / 20) ≤ 1 / 5 := by
  have h : create_order_qty (1 / 10) (1 / 20) (1 / 4) = some (1 / 5) := by
    norm_num [create_order_qty]
  exact ⟨h, c6_placed_quantity_amended (1 / 10) (1 / 20) (1 / 4) (1 / 5) h⟩

/-! ### C7 -/

/-- C7 counterexample: geometric mode with `currentPrice = 100`,
`gridSpacing = 0.01 %`, no overlap, tick size `1`, two grid orders.  The two
raw levels `99.99` and `99.98` both round down to `99`, so the rounded level
list is neither strictly decreasing nor pairwise distinct. -/
theorem c7_counterexample_levels_collide :
    ¬ ((calculate_buy_levels false (fun _ => 0) 100 (1 / 10000) 0 1 2).Pairwise (· > ·) ∧
       (calculate_buy_levels false (fun _ => 0) 100 (1 / 10000) 0 1 2).Pairwise (· ≠ ·)) := by
  intro ⟨h, _⟩
  norm_num [calculate_buy_levels, round_price, List.range_succ, List.pairwise_cons] at h

/-- Flooring to a positive tick keeps a gap of at least one tick strict. -/
theorem floor_tick_lt {a b t : ℚ} (ht : 0 < t) (h : a + t ≤ b) :
    (⌊a / t⌋ : ℚ) * t < (⌊b / t⌋ : ℚ) * t := by
  have hdiv : a / t + 1 ≤ b / t := by
    have e : (a + t) / t = a / t + 1 := by
      rw [add_div, div_self (ne_of_gt ht)]
    calc a / t + 1 = (a + t) / t := e.symm
    _ ≤ b / t := by gcongr
  have hfl : ⌊a / t⌋ + 1 ≤ ⌊b / t⌋ := by
    have := Int.floor_mono hdiv
    rwa [Int.floor_add_one] at this
  have hcast : (⌊a / t⌋ : ℚ) < (⌊b / t⌋ : ℚ) := by
    exact_mod_cast Int.lt_of_add_one_le hfl
  exact mul_lt_mul_of_pos_right hcast ht

/-- C7 (amended): in the geometric spacing mode, whenever the tick size is
positive and the grid step `currentPrice * gridSpacing * (1 + gridOverlap)`
is at least one tick, the rounded buy levels are strictly decreasing and
pairwise distinct for every number of grid orders.  (Without the step-≥-tick
condition adjacent levels can collapse onto the same tick, see the
counterexample; the logarithmic branch uses the float power
`(i + 1) ** 1.2` and is covered by the abstract `pow12` parameter only.) -/
theorem c7_grid_levels_amended (pow12 : ℕ → ℚ)
    (current spacing overlap tick : ℚ) (n : ℕ)
    (htick : 0 < tick)
    (hstep : tick ≤ current * spacing * (1 + overlap)) :
    (calculate_buy_levels false pow12 current spacing overlap tick n).Pairwise (· > ·) ∧
    (calculate_buy_levels false pow12 current spacing overlap tick n).Pairwise (· ≠ ·) := by
  have hdec :
      (calculate_buy_levels false pow12 current spacing overlap tick n).Pairwise (· > ·) := by
    unfold calculate_buy_levels
    refine (List.pairwise_lt_range n).map _ (fun i j hij => ?_)
    simp only [Bool.false_eq_true, if_false, round_price]
    set step := current * spacing * (1 + overlap) with hstepdef
    have hij1 : (i : ℚ) + 1 ≤ (j : ℚ) := by exact_mod_cast Nat.succ_le_of_lt hij
    have hstep0 : 0 < step := lt_of_lt_of_le htick hstep
    have hkey : step * 1 ≤ step * ((j : ℚ) - (i : ℚ)) := by
      apply mul_le_mul_of_nonneg_left (by linarith) (le_of_lt hstep0)
    have hgap : (current - step * ((j : ℚ) + 1)) + tick ≤ current - step * ((i : ℚ) + 1) := by
      nlinarith [hkey, hstep]
    exact floor_tick_lt htick hgap
  exact ⟨hdec, hdec.imp ne_of_gt⟩

/-- C7 witness: the amended theorem applied at current price `100`, spacing
`1 %`, no overlap, tick `0.01`, three grid orders (step `1 ≥ 0.01`). -/
theorem c7_grid_levels_witness :
    (calculate_buy_levels false (fun _ => 0) 100 (1 / 100) 0 (1 / 100) 3).Pairwise (· > ·) ∧
    (calculate_buy_levels false (fun _ => 0) 100 (1 / 100) 0 (1 / 100) 3).Pairwise (· ≠ ·) :=
  c7_grid_levels_amended (fun _ => 0) 100 (1 / 100) 0 (1 / 100) 3 (by norm_num) (by norm_num)

/-! ### C8 -/

/-- A reconciliation step leaves a closed state (no tracked buy orders, no
sell order) unchanged. -/
theorem check_open_orders_step_closed (st : ReconState) (o : OrderInfo)
    (h1 : st.pos.buyOrders = []) (h2 : st.pos.sellOrderId = none) :
    check_open_orders_step st o = st := by
  unfold check_open_orders_step
  rw [h1, h2]
  simp

/-- Folding the reconciliation loop from a closed state is the identity. -/
theorem foldl_step_closed (orders : List OrderInfo) (st : ReconState)
    (h1 : st.pos.buyOrders = []) (h2 : st.pos.sellOrderId = none) :
    orders.foldl check_open_orders_step st = st := by
  induction orders with
  | nil => rfl
  | cons o os ih =>
      rw [List.foldl_cons, check_open_orders_step_closed st o h1 h2]
      exact ih

/-- When none of the observed orders is a tracked buy order and the tracked
sell order is observed filled, the reconciliation loop ends in the closed
position with one more completed deal and no remaining buy order. -/
theorem recon_fold_closes (p : PosState) (d : ℕ) (orders : List OrderInfo)
    (hnobuy : ∀ o ∈ orders, o.orderId ∉ p.buyOrders)
    (hsell : ∃ o ∈ orders, p.sellOrderId = some o.orderId ∧ o.filled = true) :
    orders.foldl check_open_orders_step { pos := p, deals := d, remaining := [] } =
      { pos := close_position p, deals := d + 1, remaining := [] } := by
  induction orders generalizing d with
  | nil =>
      obtain ⟨o, ho, _⟩ := hsell
      exact absurd ho (List.not_mem_nil o)
  | cons o os ih =>
      have hno : o.orderId ∉ p.buyOrders := hnobuy o (List.mem_cons_self o os)
      rw [List.foldl_cons]
      by_cases hs : p.sellOrderId = some o.orderId ∧ o.filled = true
      · have hstep : check_open_orders_step { pos := p, deals := d, remaining := [] } o =
            { pos := close_position p, deals := d + 1, remaining := [] } := by
          unfold check_open_orders_step
          rw [if_neg hno, if_pos hs]
        rw [hstep]
        exact foldl_step_closed os _ rfl rfl
      · have hstep : check_open_orders_step { pos := p, deals := d, remaining := [] } o =
            { pos := p, deals := d, remaining := [] } := by
          unfold check_open_orders_step
          rw [if_neg hno, if_neg hs]
        rw [hstep]
        refine ih d (fun o' ho' => hnobuy o' (List.mem_cons_of_mem o ho')) ?_
        obtain ⟨o', ho', hprop⟩ := hsell
        rcases List.mem_cons.mp ho' with rfl | hmem
        · exact absurd hprop hs
        · exact ⟨o', hmem, hprop⟩

/-- C8 counterexample: reconciliation observes the tracked sell order `s1`
filled alongside the still-unfilled tracked buy order `b1`.  The position is
closed, but `check_open_orders` then reassigns the buy-order list to the
remaining unfilled orders, so after the pass the buy-order list is `[b1]`,
not empty. -/
theorem c8_counterexample_unfilled_buys_survive :
    (check_open_orders c8pos 0 c8orders).1.position = 0 ∧
    (check_open_orders c8pos 0 c8orders).1.buyOrders = ["b1"] ∧
    ¬ (check_open_orders c8pos 0 c8orders).1.buyOrders = [] := by
  refine ⟨?_, ?_, ?_⟩ <;>
    norm_num [check_open_orders, c8pos, c8orders, check_open_orders_step,
      close_position, update_position, show ¬"s1" = "b1" from by decide]

/-- C8 (amended): closing the position resets quantity, average price,
sell-order id, buy-order list, highest price (and the opened flag) to their
zero/empty values, and the whole reconciliation pass leaves all of them at
those values provided the observed sell fill is not accompanied by orders
belonging to the tracked buy-order list; with unfilled tracked buy orders
present the final buy-order list is the list of those orders instead. -/
theorem c8_sell_fill_reset_amended (p : PosState) (d : ℕ) (orders : List OrderInfo)
    (hnobuy : ∀ o ∈ orders, o.orderId ∉ p.buyOrders)
    (hsell : ∃ o ∈ orders, p.sellOrderId = some o.orderId ∧ o.filled = true) :
    (check_open_orders p d orders).1.position = 0 ∧
    (check_open_orders p d orders).1.avgPrice = 0 ∧
    (check_open_orders p d orders).1.sellOrderId = none ∧
    (check_open_orders p d orders).1.buyOrders = [] ∧
    (check_open_orders p d orders).1.highestPrice = 0 ∧
    (check_open_orders p d orders).1.positionOpened = false := by
  unfold check_open_orders
  rw [recon_fold_closes p d orders hnobuy hsell]
  exact ⟨rfl, rfl, rfl, rfl, rfl, rfl⟩

/-- C8 witness: the amended theorem applied to a position whose only
outstanding order is the sell order, observed filled. -/
theorem c8_sell_fill_reset_witness :
    (check_open_orders c8posW 0 c8ordersW).1.position = 0 ∧
    (check_open_orders c8posW 0 c8ordersW).1.avgPrice = 0 ∧
    (check_open_orders c8posW 0 c8ordersW).1.sellOrderId = none ∧
    (check_open_orders c8posW 0 c8ordersW).1.buyOrders = [] ∧
    (check_open_orders c8posW 0 c8ordersW).1.highestPrice = 0 ∧
    (check_open_orders c8posW 0 c8ordersW).1.positionOpened = false := by
  refine c8_sell_fill_reset_amended c8posW 0 c8ordersW ?_ ?_
  · intro o ho
    simp [c8posW]
  · exact ⟨{ orderId := "s2", filled := true, price := 6, qty := 2 },
      by simp [c8ordersW], rfl, rfl⟩

/-! ### C4 and C5: signal evaluation -/

/-- Single-signal evaluation always returns a boolean, for every oracle:
every indicator `None` is guarded before any comparison in
`check_single_signal`. -/
theorem check_single_signal_ok (o : IndicatorOracle) (stg : StratSettings)
    (spec : SignalSpec) (w : Window) (cp : Option ℚ) :
    ∃ b, check_single_signal o stg spec w cp = Except.ok b := by
  unfold check_single_signal
  repeat' split
  all_goals exact ⟨_, rfl⟩

/-- The boolean returned by a single-signal evaluation is `singleBool`. -/
theorem check_single_signal_eq_ok (o : IndicatorOracle) (stg : StratSettings)
    (spec : SignalSpec) (w : Window) (cp : Option ℚ) :
    check_single_signal o stg spec w cp = Except.ok (singleBool o stg spec w cp) := by
  obtain ⟨b, hb⟩ := check_single_signal_ok o stg spec w cp
  rw [hb]
  unfold singleBool
  rw [hb]

/-- For every member kind except MACD, the inline member branch of
`check_combined_signal` computes exactly `check_single_signal` (given a
nonempty window, which the combined evaluator has already checked). -/
theorem combined_member_eval_eq_single (o : IndicatorOracle) (stg : StratSettings)
    (spec : SignalSpec) (w : Window) (cp : Option ℚ)
    (hm : spec.isMacdKind = false) (hw : ¬ w.closes = []) :
    combined_member_eval o stg spec w cp = check_single_signal o stg spec w cp := by
  cases spec with
  | rsi p t => simp only [combined_member_eval, check_single_signal, if_neg hw]
  | macd f s g c => simp [SignalSpec.isMacdKind] at hm
  | maCrossover a b => simp only [combined_member_eval, check_single_signal, if_neg hw]
  | pivotPoints c => simp only [combined_member_eval, check_single_signal, if_neg hw]
  | cci p t => rfl
  | mfi p t => rfl
  | bollingerBands p d => rfl
  | stochastic a b t => rfl
  | price t => rfl
  | volumeSpike l t => rfl
  | adx p t => rfl
  | atr p t => rfl
  | ichimoku a b c cond => rfl
  | unknown => rfl

/-- With no MACD member and a nonempty window, the member loop returns the
list of single-signal results. -/
theorem eval_members_eq_singles (o : IndicatorOracle) (stg : StratSettings)
    (ms : List SignalSpec) (w : Window) (cp : Option ℚ)
    (hw : ¬ w.closes = []) (hm : ∀ m ∈ ms, m.isMacdKind = false) :
    eval_members o stg ms w cp =
      Except.ok (ms.map fun m => singleBool o stg m w cp) := by
  induction ms with
  | nil => rfl
  | cons m rest ih =>
      have h1 : combined_member_eval o stg m w cp = Except.ok (singleBool o stg m w cp) := by
        rw [combined_member_eval_eq_single o stg m w cp (hm m (List.mem_cons_self m rest)) hw,
          check_single_signal_eq_ok]
      have h2 := ih (fun x hx => hm x (List.mem_cons_of_mem m hx))
      simp only [eval_members, h1, h2, List.map_cons]
      rfl

/-- Folding `all` over a mapped boolean list is `all` of the composite. -/
theorem all_map_id {α} (l : List α) (f : α → Bool) : (l.map f).all id = l.all f := by
  induction l with
  | nil => rfl
  | cons a l ih => simp only [List.map_cons, List.all_cons, ih, id]

/-- C5 counterexample: a combined specification whose single member is a
MACD signal with the `crossunder` condition, on a 30-candle window where the
oracle reports a crossunder transition.  Evaluating the member individually
with `check_single_signal` yields `true`, but the combined evaluation yields
`false` (its MACD branch only ever reports `crossover`), so the combined
result is not the AND of the members' individual results. -/
theorem c5_counterexample_crossunder_member :
    check_single_signal c5oracle stg0 c5spec w30 none = Except.ok true ∧
    check_combined_signal c5oracle stg0 [c5spec] w30 none = Except.ok false := by
  constructor
  · norm_num [check_single_signal, c5spec, w30, c5oracle, calculate_macd, noneOracle,
      List.length_dropLast, show ¬"crossunder" = "crossover" from by decide]
  · norm_num [check_combined_signal, eval_members, combined_member_eval, c5spec, w30,
      c5oracle, calculate_macd, noneOracle, List.length_dropLast,
      show ¬"crossunder" = "crossover" from by decide]
    rfl

/-- C5 (amended): for a nonempty combined specification none of whose
members is a MACD signal, the combined evaluation equals the logical AND of
the results of evaluating each member individually with
`check_single_signal` on the same window.  (A MACD member breaks the
equality: its combined branch only supports the `crossover` condition and
lacks the single evaluator's `None` guard on the previous window.) -/
theorem c5_combined_and_amended (o : IndicatorOracle) (stg : StratSettings)
    (ms : List SignalSpec) (w : Window) (cp : Option ℚ)
    (hne : ms ≠ []) (hm : ∀ m ∈ ms, m.isMacdKind = false) :
    check_combined_signal o stg ms w cp =
      Except.ok (ms.all fun m => singleBool o stg m w cp) := by
  unfold check_combined_signal
  by_cases hw : w.closes = []
  · rw [if_pos hw]
    cases ms with
    | nil => exact absurd rfl hne
    | cons m rest =>
        have hfalse : singleBool o stg m w cp = false := by
          simp [singleBool, check_single_signal, hw]
        simp [List.all_cons, hfalse]
  · rw [if_neg hw, eval_members_eq_singles o stg ms w cp hw hm]
    simp [Except.map, all_map_id]

/-- C5 witness: the amended theorem applied to the one-member combined
specification `[rsi 14 30]` on the 30-candle window. -/
theorem c5_combined_and_witness :
    check_combined_signal c5oracle stg0 [SignalSpec.rsi 14 30] w30 none =
      Except.ok ([SignalSpec.rsi 14 30].all fun m => singleBool c5oracle stg0 m w30 none) := by
  refine c5_combined_and_amended c5oracle stg0 [SignalSpec.rsi 14 30] w30 none ?_ ?_
  · simp
  · intro m hmem
    rw [List.mem_singleton] at hmem
    subst hmem
    rfl

/-- C4 counterexample: the combined evaluation of the single-member MACD
specification on a window of exactly 26 candles, with an oracle reporting
the MACD line above the signal line on the full window.  The previous-window
MACD (25 candles, below `slow_period = 26`) is undefined by the concrete
guard of `calculate_macd`, and the unguarded comparison
`prev_macd <= prev_signal_line` raises, so evaluation raises an exception
precisely because of insufficient history, contradicting the claim. -/
theorem c4_counterexample_combined_macd_raises :
    check_combined_signal c4oracle stg0 [SignalSpec.macd 12 26 9 "crossover"] w26 none =
      Except.error () := by
  norm_num [check_combined_signal, eval_members, combined_member_eval, c4oracle, w26,
    calculate_macd, noneOracle, List.length_dropLast, Except.map]
  rfl

/-- C4 (amended): single-signal evaluation never raises (for every oracle,
specification and window); an indicator left undefined by insufficient
history yields `false` (shown for the RSI and MACD kinds, whose guards
require `period` resp. `slow_period` candles); and combined evaluation never
raises as long as no member is a MACD signal.  (A combined MACD member can
raise on insufficient previous-window history, see the counterexample.) -/
theorem c4_evaluation_safety_amended :
    (∀ (o : IndicatorOracle) (stg : StratSettings) (spec : SignalSpec) (w : Window)
        (cp : Option ℚ), ∃ b, check_single_signal o stg spec w cp = Except.ok b) ∧
    (∀ (o : IndicatorOracle) (stg : StratSettings) (period : ℕ) (threshold : ℚ)
        (w : Window) (cp : Option ℚ), w.closes.length < period →
        check_single_signal o stg (SignalSpec.rsi period threshold) w cp = Except.ok false) ∧
    (∀ (o : IndicatorOracle) (stg : StratSettings) (f s g : ℕ) (c : String)
        (w : Window) (cp : Option ℚ), w.closes.length < s →
        check_single_signal o stg (SignalSpec.macd f s g c) w cp = Except.ok false) ∧
    (∀ (o : IndicatorOracle) (stg : StratSettings) (ms : List SignalSpec) (w : Window)
        (cp : Option ℚ), (∀ m ∈ ms, m.isMacdKind = false) →
        ∃ b, check_combined_signal o stg ms w cp = Except.ok b) := by
  refine ⟨check_single_signal_ok, ?_, ?_, ?_⟩
  · intro o stg period threshold w cp hlen
    by_cases hw : w.closes = []
    · simp [check_single_signal, hw]
    · have hnone : calculate_rsi o w.closes period = none := by
        unfold calculate_rsi
        rw [if_pos (Or.inr hlen)]
      simp [check_single_signal, if_neg hw, hnone]
  · intro o stg f s g c w cp hlen
    by_cases hw : w.closes = []
    · simp [check_single_signal, hw]
    · have hnone : calculate_macd o w.closes f s g = (none, none, none) := by
        unfold calculate_macd
        rw [if_pos (Or.inr hlen)]
      simp [check_single_signal, if_neg hw, hnone]
  · intro o stg ms w cp hm
    by_cases hw : w.closes = []
    · exact ⟨false, by simp [check_combined_signal, hw]⟩
    · refine ⟨(ms.map fun m => singleBool o stg m w cp).all id, ?_⟩
      unfold check_combined_signal
      rw [if_neg hw, eval_members_eq_singles o stg ms w cp hw hm]
      rfl

/-- C4 witness: the amended theorem applied at the spec's own scenario — an
RSI(14) signal supplied with only 10 closes evaluates to `false`, and the
combined evaluation of that member returns a boolean. -/
theorem c4_evaluation_safety_witness :
    check_single_signal noneOracle stg0 (SignalSpec.rsi 14 30) w10 none = Except.ok false ∧
    ∃ b, check_combined_signal noneOracle stg0 [SignalSpec.rsi 14 30] w10 none =
      Except.ok b := by
  constructor
  · exact c4_evaluation_safety_amended.2.1 noneOracle stg0 14 30 w10 none
      (by norm_num [w10])
  · exact c4_evaluation_safety_amended.2.2.2 noneOracle stg0 [SignalSpec.rsi 14 30] w10 none
      (by
        intro m hmem
        rw [List.mem_singleton] at hmem
        subst hmem
        rfl)

end Tgnew
